import Mathlib

/-
Shallow embedding of the mpp-solar device/transport/protocol core:
the transport classifier, protocol resolver, device binding and the
command-execution pipeline of AbstractDevice and its two concrete
variants (jk24s, mppsolar).

Modelling conventions:
- Python dicts are association lists with Python insertion semantics
  (dictInsert replaces an existing key in place, otherwise appends).
- A Response is a dict from field name to a list of strings
  (value, unit; or message, detail under the reserved key ERROR).
- Concrete transport backends are external collaborators; each port kind
  carries its send_and_receive behaviour as an opaque function of exactly
  the arguments the device code passes to it, and run_command additionally
  returns the list of protocol/transport operations it performed, so that
  absence of I/O or of encode/decode on a path is provable.
- Python exceptions that escape the modelled code are an Except.error
  carrying a PyError value.
-/

/-- Python-style values as they occur in command batches. -/
inductive PyVal where
  | str (s : String)
  | int (n : Int)
  | bool (b : Bool)
deriving DecidableEq

/-- Python dict assignment d[k] = v: replace in place, else append. -/
def dictInsert {α β : Type} [DecidableEq α] : List (α × β) → α → β → List (α × β)
  | [], k, v => [(k, v)]
  | (k0, v0) :: rest, k, v =>
      if k0 = k then (k, v) :: rest else (k0, v0) :: dictInsert rest k v

/-- Python dict lookup d[k] (first matching key). -/
def dictLookup {α β : Type} [DecidableEq α] : List (α × β) → α → Option β
  | [], _ => none
  | (k0, v0) :: rest, k => if k0 = k then some v0 else dictLookup rest k

/-- Python d1.update(d2): every key of d2 is written into d1 in order. -/
def dictUpdate {α β : Type} [DecidableEq α] (d1 d2 : List (α × β)) : List (α × β) :=
  d2.foldl (fun acc kv => dictInsert acc kv.1 kv.2) d1

/-- The keys of an association list are pairwise distinct (true of any
list that models an actual Python dict). -/
def keysNodup {α β : Type} [DecidableEq α] (d : List (α × β)) : Prop :=
  (d.map Prod.fst).Nodup

instance {α β : Type} [DecidableEq α] (d : List (α × β)) : Decidable (keysNodup d) := by
  unfold keysNodup; infer_instance

/-- The response shape: field name mapsto [value, unit] / [message, detail]. -/
abbrev Response := List (String × List String)

/-- The ERROR response of run_command when no protocol is bound. -/
def errNoProtocol : Response :=
  [("ERROR", ["Attempted to run command with no protocol defined", ""])]

/-- The ERROR response of run_command when no port is bound. -/
def errNoPort (command : String) : Response :=
  [("ERROR", ["No communications port defined - unable to run command " ++ command, ""])]

/-- The ERROR response run_commands files for a malformed batch entry. -/
def unknownCommandFormat : Response :=
  [("ERROR", ["Unknown command format", "(Indexed from 0)"])]

/-- Boolean list-segment test (needle occurs contiguously in haystack). -/
def listIsPrefixOf {α : Type} [DecidableEq α] : List α → List α → Bool
  | [], _ => true
  | _ :: _, [] => false
  | a :: as, b :: bs => a = b && listIsPrefixOf as bs

def listIsInfixOf {α : Type} [DecidableEq α] (p : List α) : List α → Bool
  | [] => listIsPrefixOf p []
  | b :: bs => listIsPrefixOf p (b :: bs) || listIsInfixOf p bs

/-- Python s.lower() (ASCII case folding, as the locators here use). -/
def pyLower (s : String) : String := ⟨s.data.map Char.toLower⟩

/-- Python substring test: pat in s. -/
def pyIn (pat s : String) : Bool := listIsInfixOf pat.data s.data

/-- A Python exception escaping the modelled code. -/
inductive PyError where
  | attributeError (msg : String)
deriving DecidableEq

def PORT_TYPE_TEST : Nat := 1
def PORT_TYPE_USB : Nat := 2
def PORT_TYPE_ESP32 : Nat := 4
def PORT_TYPE_SERIAL : Nat := 8
def PORT_TYPE_JKBLE : Nat := 16

/-- AbstractDevice.is_test_device. -/
def is_test_device (serial_device : String) : Bool :=
  pyIn "test" (pyLower serial_device)

/-- AbstractDevice.is_directusb_device (the falsy guard, then two
case-sensitive substring checks). -/
def is_directusb_device (serial_device : String) : Bool :=
  if serial_device = "" then false
  else if pyIn "hidraw" serial_device then true
  else if pyIn "mppsolar" serial_device then true
  else false

/-- AbstractDevice.is_ESP32_device. -/
def is_ESP32_device (serial_device : String) : Bool :=
  pyIn "esp" (pyLower serial_device)

/-- AbstractDevice.is_JKBle_device. -/
def is_JKBle_device (serial_device : String) : Bool :=
  pyIn ":" (pyLower serial_device)

/-- AbstractDevice.get_port_type on an actual string locator. -/
def get_port_type (port : String) : Nat :=
  if is_test_device port then PORT_TYPE_TEST
  else if is_directusb_device port then PORT_TYPE_USB
  else if is_ESP32_device port then PORT_TYPE_ESP32
  else if is_JKBle_device port then PORT_TYPE_JKBLE
  else PORT_TYPE_SERIAL

/-- AbstractDevice.get_port_type on an optional locator: a None locator
reaches is_test_device first, whose serial_device.lower() raises
AttributeError on None before any later rule can run. -/
def get_port_type_opt (port : Option String) : Except PyError Nat :=
  match port with
  | none => Except.error (PyError.attributeError "NoneType object has no attribute lower")
  | some s => Except.ok (get_port_type s)

/-- The decode spec a protocol holds for a command (opaque here). -/
abbrev CommandDefn := String

/-- The protocol codec capability consumed by the device core
(registry, status/settings subsets, default command, encode, decode). -/
structure Protocol where
  COMMANDS : List (String × String)
  STATUS_COMMANDS : List String
  SETTINGS_COMMANDS : List String
  DEFAULT_COMMAND : String
  get_full_command : String → String
  get_command_defn : String → CommandDefn
  decode : String → Bool → String → Response

/-- What a raw (protocol-agnostic) transport hands back: raw data, or a
dict reporting an error in-band. -/
inductive WireResult where
  | raw (data : String)
  | dict (r : Response)

/-- The port bound to a jk24s device. The three shapes mirror the
isinstance branches of jk24s.run_command: the JkBle backend is
protocol-aware (name, show_raw, protocol), the test backend takes
(full_command, command_defn), every other backend takes (full_command).
Each constructor carries the opaque send_and_receive behaviour of that
backend. -/
inductive JkPort where
  | jkBleDev (beh : String → Bool → Protocol → Response)
  | testDev (beh : String → CommandDefn → WireResult)
  | rawDev (beh : String → WireResult)

/-- The port bound to an mppsolar device. mppsolar.run_command calls
send_and_receive uniformly with (command, show_raw, protocol) whatever
transport the classifier bound, so the behaviour is one opaque ternary
function; port_type records the classifier result that selected it. -/
structure MpPort where
  port_type : Nat
  send_and_receive : String → Bool → Protocol → Response

/-- Protocol/transport operations a run observably performs, in order. -/
inductive Event where
  | getFullCommand (name : String)
  | getCommandDefn (name : String)
  | sendReceiveRaw (payload : String)
  | sendReceiveTest (payload : String) (defn : CommandDefn)
  | sendReceiveAware (name : String) (showRaw : Bool)
  | decode (raw : String) (showRaw : Bool) (name : String)
deriving DecidableEq

/-- jk24s.run_command: the two binding guards, then the isinstance
branch on the bound port. Returns the response and the operations
performed. -/
def jk24s.run_command (protocol : Option Protocol) (port : Option JkPort)
    (command : String) (show_raw : Bool) : Response × List Event :=
  match protocol with
  | none => (errNoProtocol, [])
  | some proto =>
    match port with
    | none => (errNoPort command, [])
    | some (JkPort.jkBleDev beh) =>
        (beh command show_raw proto, [Event.sendReceiveAware command show_raw])
    | some (JkPort.testDev beh) =>
        let full_command := proto.get_full_command command
        let defn := proto.get_command_defn command
        let pre := [Event.getFullCommand command, Event.getCommandDefn command,
                    Event.sendReceiveTest full_command defn]
        match beh full_command defn with
        | WireResult.dict d => (d, pre)
        | WireResult.raw r =>
            (proto.decode r show_raw command, pre ++ [Event.decode r show_raw command])
    | some (JkPort.rawDev beh) =>
        let full_command := proto.get_full_command command
        let pre := [Event.getFullCommand command, Event.sendReceiveRaw full_command]
        match beh full_command with
        | WireResult.dict d => (d, pre)
        | WireResult.raw r =>
            (proto.decode r show_raw command, pre ++ [Event.decode r show_raw command])

/-- mppsolar.run_command: the two binding guards, then an unconditional
self._port.send_and_receive(command, show_raw, self._protocol). -/
def mppsolar.run_command (protocol : Option Protocol) (port : Option MpPort)
    (command : String) (show_raw : Bool) : Response × List Event :=
  match protocol with
  | none => (errNoProtocol, [])
  | some proto =>
    match port with
    | none => (errNoPort command, [])
    | some p =>
        (p.send_and_receive command show_raw proto, [Event.sendReceiveAware command show_raw])

/-- jk24s.get_status: fold dict.update of run_command(command) over
STATUS_COMMANDS; reading STATUS_COMMANDS off an unbound protocol raises. -/
def jk24s.get_status (protocol : Option Protocol) (port : Option JkPort)
    (show_raw : Bool) : Except PyError Response :=
  match protocol with
  | none => Except.error (PyError.attributeError "NoneType object has no attribute STATUS_COMMANDS")
  | some proto =>
      Except.ok (proto.STATUS_COMMANDS.foldl
        (fun data command => dictUpdate data (jk24s.run_command (some proto) port command false).1) [])

/-- jk24s.get_settings: same shape over SETTINGS_COMMANDS. -/
def jk24s.get_settings (protocol : Option Protocol) (port : Option JkPort)
    (show_raw : Bool) : Except PyError Response :=
  match protocol with
  | none => Except.error (PyError.attributeError "NoneType object has no attribute SETTINGS_COMMANDS")
  | some proto =>
      Except.ok (proto.SETTINGS_COMMANDS.foldl
        (fun data command => dictUpdate data (jk24s.run_command (some proto) port command false).1) [])

/-- mppsolar.get_status. -/
def mppsolar.get_status (protocol : Option Protocol) (port : Option MpPort)
    (show_raw : Bool) : Except PyError Response :=
  match protocol with
  | none => Except.error (PyError.attributeError "NoneType object has no attribute STATUS_COMMANDS")
  | some proto =>
      Except.ok (proto.STATUS_COMMANDS.foldl
        (fun data command => dictUpdate data (mppsolar.run_command (some proto) port command false).1) [])

/-- mppsolar.get_settings. -/
def mppsolar.get_settings (protocol : Option Protocol) (port : Option MpPort)
    (show_raw : Bool) : Except PyError Response :=
  match protocol with
  | none => Except.error (PyError.attributeError "NoneType object has no attribute SETTINGS_COMMANDS")
  | some proto =>
      Except.ok (proto.SETTINGS_COMMANDS.foldl
        (fun data command => dictUpdate data (mppsolar.run_command (some proto) port command false).1) [])

/-- AbstractDevice.run_default_command as inherited by jk24s: it reads
self._protocol.DEFAULT_COMMAND before run_command can guard, so an
unbound protocol raises AttributeError. -/
def jk24s.run_default_command (protocol : Option Protocol) (port : Option JkPort)
    (show_raw : Bool) : Except PyError (Response × List Event) :=
  match protocol with
  | none => Except.error (PyError.attributeError "NoneType object has no attribute DEFAULT_COMMAND")
  | some proto => Except.ok (jk24s.run_command (some proto) port proto.DEFAULT_COMMAND show_raw)

/-- AbstractDevice.run_default_command as inherited by mppsolar. -/
def mppsolar.run_default_command (protocol : Option Protocol) (port : Option MpPort)
    (show_raw : Bool) : Except PyError (Response × List Event) :=
  match protocol with
  | none => Except.error (PyError.attributeError "NoneType object has no attribute DEFAULT_COMMAND")
  | some proto => Except.ok (mppsolar.run_command (some proto) port proto.DEFAULT_COMMAND show_raw)

/-- A located protocol module: its attributes, an attribute being a
callable protocol class (called with the fixed init arguments). -/
structure PyModule where
  attrs : String → Option (Unit → Protocol)

/-- The protocol binding of a device (_protocol, _protocol_class). -/
structure ProtoState where
  protocol : Option Protocol
  protocol_class : Option (Unit → Protocol)

/-- AbstractDevice.set_protocol, with importlib modelled as the ambient
module table keyed by the dotted module name. Every path overwrites both
fields, so the prior binding never survives. -/
def set_protocol (modules : String → Option PyModule)
    (protocolName : Option String) : ProtoState :=
  match protocolName with
  | none => ⟨none, none⟩
  | some protocol =>
    let protocol_id := pyLower protocol
    match modules ("mppsolar.protocols." ++ protocol_id) with
    | none => ⟨none, none⟩
    | some proto_module =>
      match proto_module.attrs protocol_id with
      | none => ⟨none, none⟩
      | some ctor => ⟨some (ctor ()), some ctor⟩

/-- A batch entry handed to run_commands: a string, a tuple, or any
other value (e.g. an int). -/
inductive CmdEntry where
  | str (s : String)
  | tup (elems : List PyVal)
  | other (v : PyVal)

/-- One iteration of the run_commands loop at (index, entry). runCmd is
the dynamically dispatched self.run_command, taking the command value and
the ordered extra arguments the entry carries past its alias. -/
def run_commands_step (runCmd : PyVal → List PyVal → Response)
    (responses : List (PyVal × Response)) (ic : Nat × CmdEntry) : List (PyVal × Response) :=
  match ic.2 with
  | CmdEntry.str s => dictInsert responses (PyVal.str s) (runCmd (PyVal.str s) [])
  | CmdEntry.tup [] =>
      dictInsert responses (PyVal.str ("Command " ++ toString ic.1)) unknownCommandFormat
  | CmdEntry.tup [c] => dictInsert responses c (runCmd c [])
  | CmdEntry.tup [c, a] => dictInsert responses a (runCmd c [])
  | CmdEntry.tup (c :: a :: rest) => dictInsert responses a (runCmd c rest)
  | CmdEntry.other _ =>
      dictInsert responses (PyVal.str ("Command " ++ toString ic.1)) unknownCommandFormat

/-- AbstractDevice.run_commands: the enumerated loop over the batch. -/
def run_commands (runCmd : PyVal → List PyVal → Response)
    (commands : List CmdEntry) : List (PyVal × Response) :=
  commands.enum.foldl (run_commands_step runCmd) []

/-- AbstractDevice.list_commands. -/
def list_commands (protocol : Option Protocol) : Response :=
  match protocol with
  | none => [("ERROR", ["Attempted to list commands with no protocol defined", ""])]
  | some proto => proto.COMMANDS.foldl (fun result kv => dictInsert result kv.1 [kv.2, ""]) []

/-- Spec-side characterisation of last-write-wins merging: the value of
k in a fold of updates is the value of k in the last dict that holds k. -/
def mergedLookup {β : Type} (ds : List (List (String × β))) (k : String) : Option β :=
  ds.foldl (fun acc d => match dictLookup d k with | some v => some v | none => acc) none

theorem dictLookup_dictInsert {α β : Type} [DecidableEq α]
    (d : List (α × β)) (k : α) (v : β) (q : α) :
    dictLookup (dictInsert d k v) q = if k = q then some v else dictLookup d q := by
  induction d with
  | nil => simp [dictInsert, dictLookup]
  | cons hd tl ih =>
    obtain ⟨k0, v0⟩ := hd
    by_cases h0 : k0 = k
    · subst h0
      by_cases hq : k0 = q
      · subst hq; simp [dictInsert, dictLookup]
      · simp [dictInsert, dictLookup, hq]
    · by_cases hq : k0 = q
      · subst hq
        have hk : ¬ k = k0 := fun h => h0 h.symm
        simp [dictInsert, dictLookup, h0, hk]
      · simp [dictInsert, dictLookup, h0, hq, ih]

theorem dictLookup_eq_none_of_not_mem {α β : Type} [DecidableEq α]
    (d : List (α × β)) (k : α) (h : k ∉ d.map Prod.fst) : dictLookup d k = none := by
  induction d with
  | nil => rfl
  | cons hd tl ih =>
    obtain ⟨k0, v0⟩ := hd
    simp only [List.map_cons, List.mem_cons] at h
    push_neg at h
    have hk : ¬ k0 = k := fun hkk => h.1 hkk.symm
    simpa [dictLookup, hk] using ih h.2

theorem dictLookup_dictUpdate {β : Type}
    (d1 d2 : List (String × β)) (k : String) (h : keysNodup d2) :
    dictLookup (dictUpdate d1 d2) k
      = match dictLookup d2 k with | some v => some v | none => dictLookup d1 k := by
  induction d2 generalizing d1 with
  | nil => simp [dictUpdate, dictLookup]
  | cons hd tl ih =>
    obtain ⟨k0, v0⟩ := hd
    have hmem : k0 ∉ tl.map Prod.fst := by
      have := h
      simp only [keysNodup, List.map_cons, List.nodup_cons] at this
      exact this.1
    have htl : keysNodup tl := by
      have := h
      simp only [keysNodup, List.map_cons, List.nodup_cons] at this
      exact this.2
    have step : dictUpdate d1 ((k0, v0) :: tl) = dictUpdate (dictInsert d1 k0 v0) tl := by
      simp [dictUpdate]
    rw [step, ih _ htl]
    by_cases hq : k0 = k
    · subst hq
      have : dictLookup tl k0 = none := dictLookup_eq_none_of_not_mem tl k0 hmem
      simp [dictLookup, this, dictLookup_dictInsert]
    · simp only [dictLookup, hq, if_false]
      cases htlk : dictLookup tl k with
      | some v => simp
      | none => simp [dictLookup_dictInsert, hq]

theorem dictLookup_foldl_dictUpdate {β : Type}
    (ds : List (List (String × β))) (d0 : List (String × β)) (k : String)
    (h : ∀ d ∈ ds, keysNodup d) :
    dictLookup (ds.foldl dictUpdate d0) k
      = ds.foldl (fun acc d => match dictLookup d k with | some v => some v | none => acc)
          (dictLookup d0 k) := by
  induction ds generalizing d0 with
  | nil => rfl
  | cons d tl ih =>
    have hd : keysNodup d := h d (List.mem_cons_self d tl)
    have htl : ∀ x ∈ tl, keysNodup x := fun x hx => h x (List.mem_cons_of_mem d hx)
    simp only [List.foldl_cons]
    rw [ih (dictUpdate d0 d) htl, dictLookup_dictUpdate d0 d k hd]

/-- The key under which run_commands files the entry at index i. -/
def entryKey (i : Nat) : CmdEntry → PyVal
  | CmdEntry.str s => PyVal.str s
  | CmdEntry.tup [] => PyVal.str ("Command " ++ toString i)
  | CmdEntry.tup [c] => c
  | CmdEntry.tup (_ :: a :: _) => a
  | CmdEntry.other _ => PyVal.str ("Command " ++ toString i)

/-- Key accumulation of a Python dict write: keep position if present,
else append. -/
def keyFold {α : Type} [DecidableEq α] (ks : List α) (k : α) : List α :=
  if k ∈ ks then ks else ks ++ [k]

/-- The ordered key set run_commands ends with, computed from the batch
alone (independent of any command result). -/
def batchKeys (commands : List CmdEntry) : List PyVal :=
  commands.enum.foldl (fun ks ic => keyFold ks (entryKey ic.1 ic.2)) []

theorem map_fst_dictInsert {α β : Type} [DecidableEq α]
    (d : List (α × β)) (k : α) (v : β) :
    (dictInsert d k v).map Prod.fst = keyFold (d.map Prod.fst) k := by
  induction d with
  | nil => simp [dictInsert, keyFold]
  | cons hd tl ih =>
    obtain ⟨k0, v0⟩ := hd
    by_cases h0 : k0 = k
    · subst h0
      simp [dictInsert, keyFold]
    · have hne : ¬ k = k0 := fun h => h0 h.symm
      by_cases hmem : k ∈ tl.map Prod.fst
      · simp [dictInsert, h0, keyFold, hmem, hne, ih]
      · simp [dictInsert, h0, keyFold, hmem, hne, ih]

theorem map_fst_run_commands_step (runCmd : PyVal → List PyVal → Response)
    (responses : List (PyVal × Response)) (ic : Nat × CmdEntry) :
    (run_commands_step runCmd responses ic).map Prod.fst
      = keyFold (responses.map Prod.fst) (entryKey ic.1 ic.2) := by
  obtain ⟨i, e⟩ := ic
  cases e with
  | str s => simp [run_commands_step, entryKey, map_fst_dictInsert]
  | other v => simp [run_commands_step, entryKey, map_fst_dictInsert]
  | tup l =>
    match l with
    | [] => simp [run_commands_step, entryKey, map_fst_dictInsert]
    | [c] => simp [run_commands_step, entryKey, map_fst_dictInsert]
    | [c, a] => simp [run_commands_step, entryKey, map_fst_dictInsert]
    | c :: a :: b :: rest => simp [run_commands_step, entryKey, map_fst_dictInsert]

theorem map_fst_foldl_run_commands_step (runCmd : PyVal → List PyVal → Response)
    (l : List (Nat × CmdEntry)) (acc : List (PyVal × Response)) :
    (l.foldl (run_commands_step runCmd) acc).map Prod.fst
      = l.foldl (fun ks ic => keyFold ks (entryKey ic.1 ic.2)) (acc.map Prod.fst) := by
  induction l generalizing acc with
  | nil => rfl
  | cons hd tl ih =>
    simp only [List.foldl_cons]
    rw [ih, map_fst_run_commands_step]

/-- A concrete protocol codec used to instantiate general theorems. -/
def proto0 : Protocol :=
  { COMMANDS := [("QPI", "device protocol id inquiry")]
    STATUS_COMMANDS := ["QPIGS", "QPI"]
    SETTINGS_COMMANDS := ["QPIRI"]
    DEFAULT_COMMAND := "QPI"
    get_full_command := fun c => "F-" ++ c
    get_command_defn := fun c => "D-" ++ c
    decode := fun raw sr c => [(c, [raw, if sr then "R" else ""])] }

/-- A concrete serial-classified port bound to an mppsolar device. -/
def serialPort0 : MpPort := ⟨PORT_TYPE_SERIAL, fun _ _ _ => []⟩

/-- Claim C1: with no protocol bound, run_command returns the
no-protocol ERROR Response and performs no transport or protocol
operation, on both device variants and whatever port is bound (so the
protocol guard runs first); with a protocol but no port bound it
returns the no-port ERROR Response, again with no operation performed;
and the two ERROR Responses are distinct for every command name. -/
theorem run_command_binding_guard_errors :
    (∀ (port : Option JkPort) (command : String) (sr : Bool),
       jk24s.run_command none port command sr = (errNoProtocol, []))
  ∧ (∀ (proto : Protocol) (command : String) (sr : Bool),
       jk24s.run_command (some proto) none command sr = (errNoPort command, []))
  ∧ (∀ (port : Option MpPort) (command : String) (sr : Bool),
       mppsolar.run_command none port command sr = (errNoProtocol, []))
  ∧ (∀ (proto : Protocol) (command : String) (sr : Bool),
       mppsolar.run_command (some proto) none command sr = (errNoPort command, []))
  ∧ (∀ command : String, errNoProtocol ≠ errNoPort command) := by
  refine ⟨fun _ _ _ => rfl, fun _ _ _ => rfl, fun _ _ _ => rfl, fun _ _ _ => rfl, ?_⟩
  intro command h
  have h2 : ("Attempted to run command with no protocol defined" : String)
      = "No communications port defined - unable to run command " ++ command :=
    congrArg (fun r => (r.headD ("", [])).2.headD "") h
  have h3 := congrArg (fun s => s.data.head?) h2
  simp only [String.data_append] at h3
  simp at h3

/-- Claim C1 witness: the guard clauses and distinctness at concrete
inputs. -/
theorem run_command_binding_guard_errors_witness :
    jk24s.run_command none (some (JkPort.rawDev (fun _ => WireResult.raw "x"))) "QPI" false
      = (errNoProtocol, [])
  ∧ jk24s.run_command (some proto0) none "QPI" false = (errNoPort "QPI", [])
  ∧ mppsolar.run_command none (some serialPort0) "QPI" true = (errNoProtocol, [])
  ∧ mppsolar.run_command (some proto0) none "QPI" true = (errNoPort "QPI", [])
  ∧ errNoProtocol ≠ errNoPort "QPI" :=
  ⟨run_command_binding_guard_errors.1 _ "QPI" false,
   run_command_binding_guard_errors.2.1 proto0 "QPI" false,
   run_command_binding_guard_errors.2.2.1 (some serialPort0) "QPI" true,
   run_command_binding_guard_errors.2.2.2.1 proto0 "QPI" true,
   run_command_binding_guard_errors.2.2.2.2 "QPI"⟩

/-- Claim C2 (amended): on the jk24s variant bound to a protocol and a
protocol-agnostic transport, run_command first obtains the full wire
payload via get_full_command, then calls the transport's raw
send_and_receive with that payload (the test-loopback transport is
additionally passed the command definition), and when the transport
does not report an in-band error it returns decode(raw, showRaw, name);
the mppsolar variant follows no such path for any transport: it always
forwards (name, showRaw, protocol) to the bound port's send_and_receive
and returns that result, never invoking get_full_command or decode. -/
theorem run_command_encode_send_decode_paths :
    (∀ (proto : Protocol) (beh : String → WireResult) (command : String) (sr : Bool) (r : String),
       beh (proto.get_full_command command) = WireResult.raw r →
       jk24s.run_command (some proto) (some (JkPort.rawDev beh)) command sr
         = (proto.decode r sr command,
            [Event.getFullCommand command,
             Event.sendReceiveRaw (proto.get_full_command command),
             Event.decode r sr command]))
  ∧ (∀ (proto : Protocol) (beh : String → CommandDefn → WireResult)
       (command : String) (sr : Bool) (r : String),
       beh (proto.get_full_command command) (proto.get_command_defn command) = WireResult.raw r →
       jk24s.run_command (some proto) (some (JkPort.testDev beh)) command sr
         = (proto.decode r sr command,
            [Event.getFullCommand command, Event.getCommandDefn command,
             Event.sendReceiveTest (proto.get_full_command command) (proto.get_command_defn command),
             Event.decode r sr command]))
  ∧ (∀ (proto : Protocol) (p : MpPort) (command : String) (sr : Bool),
       mppsolar.run_command (some proto) (some p) command sr
         = (p.send_and_receive command sr proto, [Event.sendReceiveAware command sr])) := by
  refine ⟨?_, ?_, fun _ _ _ _ => rfl⟩
  · intro proto beh command sr r h
    simp [jk24s.run_command, h]
  · intro proto beh command sr r h
    simp [jk24s.run_command, h]

/-- Claim C2 witness: each execution path at concrete inputs. -/
theorem run_command_encode_send_decode_paths_witness :
    jk24s.run_command (some proto0) (some (JkPort.rawDev (fun _ => WireResult.raw "RAW")))
        "QPI" false
      = (proto0.decode "RAW" false "QPI",
         [Event.getFullCommand "QPI", Event.sendReceiveRaw (proto0.get_full_command "QPI"),
          Event.decode "RAW" false "QPI"])
  ∧ jk24s.run_command (some proto0) (some (JkPort.testDev (fun _ _ => WireResult.raw "RAW")))
        "QPI" true
      = (proto0.decode "RAW" true "QPI",
         [Event.getFullCommand "QPI", Event.getCommandDefn "QPI",
          Event.sendReceiveTest (proto0.get_full_command "QPI") (proto0.get_command_defn "QPI"),
          Event.decode "RAW" true "QPI"])
  ∧ mppsolar.run_command (some proto0) (some serialPort0) "QPIGS" true
      = (serialPort0.send_and_receive "QPIGS" true proto0, [Event.sendReceiveAware "QPIGS" true]) :=
  ⟨run_command_encode_send_decode_paths.1 proto0 _ "QPI" false "RAW" rfl,
   run_command_encode_send_decode_paths.2.1 proto0 _ "QPI" true "RAW" rfl,
   run_command_encode_send_decode_paths.2.2 proto0 serialPort0 "QPIGS" true⟩

/-- Claim C2 counterexample: an mppsolar device bound to a protocol and
a serial-classified transport runs the command without ever asking the
protocol for the full wire payload; its only operation forwards the bare
command name, show_raw and the protocol object to the transport. -/
theorem run_command_mppsolar_no_encode_counterexample :
    serialPort0.port_type = PORT_TYPE_SERIAL
  ∧ mppsolar.run_command (some proto0) (some serialPort0) "QPI" false
      = ([], [Event.sendReceiveAware "QPI" false])
  ∧ Event.getFullCommand "QPI"
      ∉ (mppsolar.run_command (some proto0) (some serialPort0) "QPI" false).2
  ∧ Event.decode "RAW" false "QPI"
      ∉ (mppsolar.run_command (some proto0) (some serialPort0) "QPI" false).2 :=
  ⟨rfl, rfl, by decide, by decide⟩

/-- Claim C3: run_commands files a string entry under the string, a
1-tuple under its element (identically to the bare string), a 2-tuple
under its alias, an N-tuple (N>2) under its alias with the remaining
elements passed through as ordered extra arguments; a malformed entry
yields the Unknown-command-format ERROR under the synthetic 0-indexed
key; collisions are last-write-wins; the ordered key set of the result
depends only on the batch (so no entry's result aborts processing), and
the worked example yields exactly the keys A, alias, alias2. -/
theorem run_commands_batch_semantics :
    (∀ runCmd : PyVal → List PyVal → Response,
       run_commands runCmd
         [CmdEntry.str "A",
          CmdEntry.tup [PyVal.str "B", PyVal.str "alias"],
          CmdEntry.tup [PyVal.str "C", PyVal.str "alias2", PyVal.int 1, PyVal.int 2]]
         = [(PyVal.str "A", runCmd (PyVal.str "A") []),
            (PyVal.str "alias", runCmd (PyVal.str "B") []),
            (PyVal.str "alias2", runCmd (PyVal.str "C") [PyVal.int 1, PyVal.int 2])])
  ∧ (∀ runCmd : PyVal → List PyVal → Response,
       run_commands runCmd
         [CmdEntry.tup [PyVal.str "X", PyVal.str "k"], CmdEntry.tup [PyVal.str "Y", PyVal.str "k"]]
         = [(PyVal.str "k", runCmd (PyVal.str "Y") [])])
  ∧ (∀ runCmd : PyVal → List PyVal → Response,
       run_commands runCmd [CmdEntry.other (PyVal.int 42)]
         = [(PyVal.str "Command 0", unknownCommandFormat)])
  ∧ (∀ (runCmd : PyVal → List PyVal → Response) (s : String),
       run_commands runCmd [CmdEntry.tup [PyVal.str s]] = run_commands runCmd [CmdEntry.str s])
  ∧ (∀ (runCmd : PyVal → List PyVal → Response) (commands : List CmdEntry),
       (run_commands runCmd commands).map Prod.fst = batchKeys commands) := by
  refine ⟨fun runCmd => rfl, fun runCmd => rfl, fun runCmd => rfl, fun runCmd s => rfl, ?_⟩
  intro runCmd commands
  have h := map_fst_foldl_run_commands_step runCmd commands.enum []
  simpa [run_commands, batchKeys] using h

/-- Claim C4: when the protocol module is missing, or present without a
constructor attribute named by the lower-cased protocol name,
set_protocol returns normally with both the protocol instance and the
protocol class cleared, and a subsequent run_command on either device
variant reports the no-protocol ERROR instead of crashing. -/
theorem set_protocol_failure_unbinds :
    (∀ (modules : String → Option PyModule) (n : String),
       modules ("mppsolar.protocols." ++ pyLower n) = none →
       set_protocol modules (some n) = ⟨none, none⟩)
  ∧ (∀ (modules : String → Option PyModule) (n : String) (m : PyModule),
       modules ("mppsolar.protocols." ++ pyLower n) = some m →
       m.attrs (pyLower n) = none →
       set_protocol modules (some n) = ⟨none, none⟩)
  ∧ (∀ (modules : String → Option PyModule) (n : String) (port : Option JkPort)
       (command : String) (sr : Bool),
       modules ("mppsolar.protocols." ++ pyLower n) = none →
       jk24s.run_command (set_protocol modules (some n)).protocol port command sr
         = (errNoProtocol, []))
  ∧ (∀ (modules : String → Option PyModule) (n : String) (m : PyModule) (port : Option JkPort)
       (command : String) (sr : Bool),
       modules ("mppsolar.protocols." ++ pyLower n) = some m →
       m.attrs (pyLower n) = none →
       jk24s.run_command (set_protocol modules (some n)).protocol port command sr
         = (errNoProtocol, []))
  ∧ (∀ (modules : String → Option PyModule) (n : String) (port : Option MpPort)
       (command : String) (sr : Bool),
       modules ("mppsolar.protocols." ++ pyLower n) = none →
       mppsolar.run_command (set_protocol modules (some n)).protocol port command sr
         = (errNoProtocol, []))
  ∧ (∀ (modules : String → Option PyModule) (n : String) (m : PyModule) (port : Option MpPort)
       (command : String) (sr : Bool),
       modules ("mppsolar.protocols." ++ pyLower n) = some m →
       m.attrs (pyLower n) = none →
       mppsolar.run_command (set_protocol modules (some n)).protocol port command sr
         = (errNoProtocol, [])) := by
  refine ⟨?_, ?_, ?_, ?_, ?_, ?_⟩
  · intro modules n h
    simp [set_protocol, h]
  · intro modules n m h1 h2
    simp [set_protocol, h1, h2]
  · intro modules n port command sr h
    simp [set_protocol, h, jk24s.run_command]
  · intro modules n m port command sr h1 h2
    simp [set_protocol, h1, h2, jk24s.run_command]
  · intro modules n port command sr h
    simp [set_protocol, h, mppsolar.run_command]
  · intro modules n m port command sr h1 h2
    simp [set_protocol, h1, h2, mppsolar.run_command]

/-- A module table with no protocol modules at all. -/
def modulesNone : String → Option PyModule := fun _ => none

/-- A module located under mppsolar.protocols.qpi exposing no attributes. -/
def emptyModule : PyModule := ⟨fun _ => none⟩

/-- A module table holding only the attribute-less qpi module. -/
def modulesEmptyQpi : String → Option PyModule :=
  fun k => if k = "mppsolar.protocols.qpi" then some emptyModule else none

/-- Claim C4 witness: both failure kinds at concrete inputs, and the
follow-up run_command on each variant. -/
theorem set_protocol_failure_unbinds_witness :
    set_protocol modulesNone (some "QPI") = ⟨none, none⟩
  ∧ set_protocol modulesEmptyQpi (some "QPI") = ⟨none, none⟩
  ∧ jk24s.run_command (set_protocol modulesNone (some "QPI")).protocol none "QPI" false
      = (errNoProtocol, [])
  ∧ jk24s.run_command (set_protocol modulesEmptyQpi (some "QPI")).protocol none "QPI" false
      = (errNoProtocol, [])
  ∧ mppsolar.run_command (set_protocol modulesNone (some "QPI")).protocol (some serialPort0) "QPI" true
      = (errNoProtocol, [])
  ∧ mppsolar.run_command (set_protocol modulesEmptyQpi (some "QPI")).protocol (some serialPort0) "QPI" true
      = (errNoProtocol, []) :=
  ⟨set_protocol_failure_unbinds.1 modulesNone "QPI" rfl,
   set_protocol_failure_unbinds.2.1 modulesEmptyQpi "QPI" emptyModule rfl rfl,
   set_protocol_failure_unbinds.2.2.1 modulesNone "QPI" none "QPI" false rfl,
   set_protocol_failure_unbinds.2.2.2.1 modulesEmptyQpi "QPI" emptyModule none "QPI" false rfl rfl,
   set_protocol_failure_unbinds.2.2.2.2.1 modulesNone "QPI" (some serialPort0) "QPI" true rfl,
   set_protocol_failure_unbinds.2.2.2.2.2 modulesEmptyQpi "QPI" emptyModule (some serialPort0) "QPI" true rfl rfl⟩

/-- Claim C5: when a protocol-agnostic transport reports an error
in-band (its send_and_receive hands back a dict instead of raw data),
run_command returns that dict unmodified and its operation trace ends
at the transport call, so the protocol decode is never invoked; the
mppsolar variant likewise never performs a decode operation. -/
theorem run_command_inband_error_skips_decode :
    (∀ (proto : Protocol) (beh : String → WireResult) (command : String) (sr : Bool) (d : Response),
       beh (proto.get_full_command command) = WireResult.dict d →
       jk24s.run_command (some proto) (some (JkPort.rawDev beh)) command sr
         = (d, [Event.getFullCommand command,
                Event.sendReceiveRaw (proto.get_full_command command)]))
  ∧ (∀ (proto : Protocol) (beh : String → CommandDefn → WireResult)
       (command : String) (sr : Bool) (d : Response),
       beh (proto.get_full_command command) (proto.get_command_defn command) = WireResult.dict d →
       jk24s.run_command (some proto) (some (JkPort.testDev beh)) command sr
         = (d, [Event.getFullCommand command, Event.getCommandDefn command,
                Event.sendReceiveTest (proto.get_full_command command)
                  (proto.get_command_defn command)]))
  ∧ (∀ (proto : Protocol) (p : MpPort) (command : String) (sr : Bool)
       (r : String) (srr : Bool) (c : String),
       Event.decode r srr c ∉ (mppsolar.run_command (some proto) (some p) command sr).2) := by
  refine ⟨?_, ?_, ?_⟩
  · intro proto beh command sr d h
    simp [jk24s.run_command, h]
  · intro proto beh command sr d h
    simp [jk24s.run_command, h]
  · intro proto p command sr r srr c
    simp [mppsolar.run_command]

/-- A concrete in-band transport error dict. -/
def errSerial0 : Response := [("ERROR", ["Serial command execution failed", ""])]

/-- Claim C5 witness: in-band transport errors at concrete inputs. -/
theorem run_command_inband_error_skips_decode_witness :
    jk24s.run_command (some proto0) (some (JkPort.rawDev (fun _ => WireResult.dict errSerial0)))
        "QPI" true
      = (errSerial0, [Event.getFullCommand "QPI",
                      Event.sendReceiveRaw (proto0.get_full_command "QPI")])
  ∧ jk24s.run_command (some proto0) (some (JkPort.testDev (fun _ _ => WireResult.dict errSerial0)))
        "QPI" false
      = (errSerial0, [Event.getFullCommand "QPI", Event.getCommandDefn "QPI",
                      Event.sendReceiveTest (proto0.get_full_command "QPI")
                        (proto0.get_command_defn "QPI")])
  ∧ Event.decode "raw" false "QPI"
      ∉ (mppsolar.run_command (some proto0) (some serialPort0) "QPI" false).2 :=
  ⟨run_command_inband_error_skips_decode.1 proto0 _ "QPI" true errSerial0 rfl,
   run_command_inband_error_skips_decode.2.1 proto0 _ "QPI" false errSerial0 rfl,
   run_command_inband_error_skips_decode.2.2 proto0 serialPort0 "QPI" false "raw" false "QPI"⟩

/-- Claim C6: with a protocol bound, get_status runs every command of
STATUS_COMMANDS (and get_settings every command of SETTINGS_COMMANDS)
in registry order with the inner run_command, and the merged result
maps each key to the value given it by the last-running command whose
response holds that key, on both device variants. -/
theorem get_status_settings_merge :
    (∀ (proto : Protocol) (port : Option JkPort) (sr : Bool) (k : String),
       (∀ c ∈ proto.STATUS_COMMANDS, keysNodup (jk24s.run_command (some proto) port c false).1) →
       (jk24s.get_status (some proto) port sr).map (fun r => dictLookup r k)
         = Except.ok (mergedLookup
             (proto.STATUS_COMMANDS.map (fun c => (jk24s.run_command (some proto) port c false).1)) k))
  ∧ (∀ (proto : Protocol) (port : Option JkPort) (sr : Bool) (k : String),
       (∀ c ∈ proto.SETTINGS_COMMANDS, keysNodup (jk24s.run_command (some proto) port c false).1) →
       (jk24s.get_settings (some proto) port sr).map (fun r => dictLookup r k)
         = Except.ok (mergedLookup
             (proto.SETTINGS_COMMANDS.map (fun c => (jk24s.run_command (some proto) port c false).1)) k))
  ∧ (∀ (proto : Protocol) (port : Option MpPort) (sr : Bool) (k : String),
       (∀ c ∈ proto.STATUS_COMMANDS, keysNodup (mppsolar.run_command (some proto) port c false).1) →
       (mppsolar.get_status (some proto) port sr).map (fun r => dictLookup r k)
         = Except.ok (mergedLookup
             (proto.STATUS_COMMANDS.map (fun c => (mppsolar.run_command (some proto) port c false).1)) k))
  ∧ (∀ (proto : Protocol) (port : Option MpPort) (sr : Bool) (k : String),
       (∀ c ∈ proto.SETTINGS_COMMANDS, keysNodup (mppsolar.run_command (some proto) port c false).1) →
       (mppsolar.get_settings (some proto) port sr).map (fun r => dictLookup r k)
         = Except.ok (mergedLookup
             (proto.SETTINGS_COMMANDS.map (fun c => (mppsolar.run_command (some proto) port c false).1)) k)) := by
  have key : ∀ (cmds : List String) (run1 : String → Response) (k : String),
      (∀ c ∈ cmds, keysNodup (run1 c)) →
      dictLookup (cmds.foldl (fun data c => dictUpdate data (run1 c)) []) k
        = mergedLookup (cmds.map run1) k := by
    intro cmds run1 k h
    have hfold : cmds.foldl (fun data c => dictUpdate data (run1 c)) []
        = (cmds.map run1).foldl dictUpdate [] := (List.foldl_map run1 dictUpdate cmds []).symm
    rw [hfold, dictLookup_foldl_dictUpdate]
    · rfl
    · intro d hd
      obtain ⟨c, hc, rfl⟩ := List.mem_map.mp hd
      exact h c hc
  refine ⟨?_, ?_, ?_, ?_⟩
  · intro proto port sr k h
    simpa [jk24s.get_status, Except.map] using
      key proto.STATUS_COMMANDS (fun c => (jk24s.run_command (some proto) port c false).1) k h
  · intro proto port sr k h
    simpa [jk24s.get_settings, Except.map] using
      key proto.SETTINGS_COMMANDS (fun c => (jk24s.run_command (some proto) port c false).1) k h
  · intro proto port sr k h
    simpa [mppsolar.get_status, Except.map] using
      key proto.STATUS_COMMANDS (fun c => (mppsolar.run_command (some proto) port c false).1) k h
  · intro proto port sr k h
    simpa [mppsolar.get_settings, Except.map] using
      key proto.SETTINGS_COMMANDS (fun c => (mppsolar.run_command (some proto) port c false).1) k h

/-- Claim C6 witness: the merge characterisation instantiated on a
device with a bound protocol and no port, where every inner command
yields the no-port ERROR, so the merged ERROR key holds the value of the
last status/settings command. -/
theorem get_status_settings_merge_witness :
    (jk24s.get_status (some proto0) none true).map (fun r => dictLookup r "ERROR")
      = Except.ok (mergedLookup
          (proto0.STATUS_COMMANDS.map (fun c => (jk24s.run_command (some proto0) none c false).1)) "ERROR")
  ∧ (jk24s.get_settings (some proto0) none false).map (fun r => dictLookup r "ERROR")
      = Except.ok (mergedLookup
          (proto0.SETTINGS_COMMANDS.map (fun c => (jk24s.run_command (some proto0) none c false).1)) "ERROR")
  ∧ (mppsolar.get_status (some proto0) none true).map (fun r => dictLookup r "ERROR")
      = Except.ok (mergedLookup
          (proto0.STATUS_COMMANDS.map (fun c => (mppsolar.run_command (some proto0) none c false).1)) "ERROR")
  ∧ (mppsolar.get_settings (some proto0) none false).map (fun r => dictLookup r "ERROR")
      = Except.ok (mergedLookup
          (proto0.SETTINGS_COMMANDS.map (fun c => (mppsolar.run_command (some proto0) none c false).1)) "ERROR") :=
  ⟨get_status_settings_merge.1 proto0 none true "ERROR" (by decide),
   get_status_settings_merge.2.1 proto0 none false "ERROR" (by decide),
   get_status_settings_merge.2.2.1 proto0 none true "ERROR" (by decide),
   get_status_settings_merge.2.2.2 proto0 none false "ERROR" (by decide)⟩

/-- Claim C7 (amended): a locator containing a colon classifies as the
JK BLE transport kind only after the earlier rules decline it: it must
also fail the test rule, the direct-USB rule (hidraw/mppsolar
substrings) and the ESP32 rule, which all take precedence over the
colon rule. -/
theorem get_port_type_colon_fallthrough (s : String)
    (hc : is_JKBle_device s = true)
    (ht : is_test_device s = false)
    (hu : is_directusb_device s = false)
    (he : is_ESP32_device s = false) :
    get_port_type s = PORT_TYPE_JKBLE := by
  simp [get_port_type, ht, hu, he, hc]

/-- Claim C7 witness: a MAC-address locator passes every earlier rule
and classifies as JK BLE. -/
theorem get_port_type_colon_fallthrough_witness :
    is_JKBle_device "3c:a5:09:0a:85:79" = true
  ∧ is_test_device "3c:a5:09:0a:85:79" = false
  ∧ is_directusb_device "3c:a5:09:0a:85:79" = false
  ∧ is_ESP32_device "3c:a5:09:0a:85:79" = false
  ∧ get_port_type "3c:a5:09:0a:85:79" = PORT_TYPE_JKBLE :=
  ⟨by decide, by decide, by decide, by decide,
   get_port_type_colon_fallthrough "3c:a5:09:0a:85:79" (by decide) (by decide) (by decide) (by decide)⟩

/-- Claim C7 counterexample: the locator hidraw:0 contains a colon and
does not match the test rule, yet it classifies as direct USB, not BLE,
because the hidraw substring rule runs before the colon rule. -/
theorem get_port_type_colon_counterexample :
    is_JKBle_device "hidraw:0" = true
  ∧ is_test_device "hidraw:0" = false
  ∧ get_port_type "hidraw:0" = PORT_TYPE_USB
  ∧ PORT_TYPE_USB ≠ PORT_TYPE_JKBLE :=
  ⟨by decide, by decide, by decide, by decide⟩

/-- Claim C8 (amended): classifying the empty locator does not crash
and returns the Serial kind; classifying a null locator raises an
attribute error inside the first heuristic (null.lower()) rather than
returning Serial. -/
theorem get_port_type_empty_locator_serial :
    get_port_type_opt (some "") = Except.ok PORT_TYPE_SERIAL
  ∧ get_port_type "" = PORT_TYPE_SERIAL :=
  ⟨rfl, by decide⟩

/-- Claim C8 counterexample: the null locator makes the classifier
raise instead of resolving to Serial. -/
theorem get_port_type_null_locator_counterexample :
    get_port_type_opt none
      = Except.error (PyError.attributeError "NoneType object has no attribute lower")
  ∧ get_port_type_opt none ≠ Except.ok PORT_TYPE_SERIAL :=
  ⟨rfl, fun h => Except.noConfusion h⟩

/-- Claim C9 (amended): on a device with no protocol bound,
run_default_command raises an attribute error while reading
DEFAULT_COMMAND off the unbound protocol, for every show_raw value and
on both variants; it does not return the no-protocol ERROR Response
that run_command itself would return. -/
theorem run_default_command_unbound_raises :
    (∀ (port : Option JkPort) (sr : Bool),
       jk24s.run_default_command none port sr
         = Except.error (PyError.attributeError "NoneType object has no attribute DEFAULT_COMMAND"))
  ∧ (∀ (port : Option MpPort) (sr : Bool),
       mppsolar.run_default_command none port sr
         = Except.error (PyError.attributeError "NoneType object has no attribute DEFAULT_COMMAND")) :=
  ⟨fun _ _ => rfl, fun _ _ => rfl⟩

/-- Claim C9 counterexample: with no protocol bound,
run_default_command does not produce the no-protocol ERROR Response; it
raises. -/
theorem run_default_command_unbound_counterexample :
    jk24s.run_default_command none none false
      = Except.error (PyError.attributeError "NoneType object has no attribute DEFAULT_COMMAND")
  ∧ jk24s.run_default_command none none false ≠ Except.ok (errNoProtocol, [])
  ∧ mppsolar.run_default_command none none false
      = Except.error (PyError.attributeError "NoneType object has no attribute DEFAULT_COMMAND")
  ∧ mppsolar.run_default_command none none false ≠ Except.ok (errNoProtocol, []) :=
  ⟨rfl, fun h => Except.noConfusion h, rfl, fun h => Except.noConfusion h⟩

/-- Claim C10: on both device variants, get_status and get_settings
never pass show_raw to the inner run_command (it defaults to false), so
their results are identical for any two show_raw arguments in the same
device state, including the unbound-protocol state. -/
theorem get_status_settings_ignore_show_raw :
    (∀ (proto : Option Protocol) (port : Option JkPort) (a b : Bool),
       jk24s.get_status proto port a = jk24s.get_status proto port b)
  ∧ (∀ (proto : Option Protocol) (port : Option JkPort) (a b : Bool),
       jk24s.get_settings proto port a = jk24s.get_settings proto port b)
  ∧ (∀ (proto : Option Protocol) (port : Option MpPort) (a b : Bool),
       mppsolar.get_status proto port a = mppsolar.get_status proto port b)
  ∧ (∀ (proto : Option Protocol) (port : Option MpPort) (a b : Bool),
       mppsolar.get_settings proto port a = mppsolar.get_settings proto port b) :=
  ⟨fun _ _ _ _ => rfl, fun _ _ _ _ => rfl, fun _ _ _ _ => rfl, fun _ _ _ _ => rfl⟩
